import Mathlib

/-!
Verification development for the RecoverHub payment-recovery engine.

The TypeScript source is shallowly embedded: the Postgres tables become
lists of records inside a `DB` structure, each Drizzle query/mutation
becomes a pure function `DB → … → DB × result`, and the outcome of the
one external HTTP call (`POST /v1/invoices/:id/pay`) is passed in as an
explicit `FetchOutcome` value so that the executor's branching on
success / parsed decline / unparseable body / thrown network error is
modelled exactly.  Timestamps are integers counting milliseconds
(JavaScript `Date.getTime()`); `setDate(getDate () + d)` is modelled as
adding `d * 86400000`, its UTC meaning.
-/

namespace RecoverHub

/-- Milliseconds since the Unix epoch (JavaScript `Date.getTime()`). -/
abbrev Time := Int

/-- One day in milliseconds (`24 * 60 * 60 * 1000`). -/
def msPerDay : Int := 86400000

/-- `failed_payment_status` enum of `schema.ts`. -/
inductive CaseStatus
  | active | recovered | canceled | paused
deriving DecidableEq

/-- `retry_attempt_status` enum of `schema.ts`. -/
inductive AttemptStatus
  | pending | success | failed | skipped
deriving DecidableEq

/-- `dunning_email_status` enum of `schema.ts`. -/
inductive DunningStatus
  | pending | sent | failed | bounced | opened | clicked
deriving DecidableEq

/-- A row of `stripe_connections`.  The AES-256-GCM credential vault is a
leaf collaborator: the stored ciphertext is abstracted by the result of
`decrypt` on it — `some token` when the token decrypts, `none` when
`decrypt` throws. -/
structure StripeConnection where
  id : Nat
  userId : Nat
  stripeAccountId : String
  accessTokenDecrypted : Option String
deriving DecidableEq

/-- A row of `failed_payments`. -/
structure FailedPayment where
  id : Nat
  userId : Nat
  stripeConnectionId : Nat
  stripeInvoiceId : Option String
  stripeCustomerId : String
  customerEmail : Option String
  customerName : Option String
  amountCents : Int
  currency : String
  status : CaseStatus
  recoveryStartedAt : Option Time
  recoveredAt : Option Time
  createdAt : Time
  updatedAt : Time
deriving DecidableEq

/-- A row of `retry_attempts`. -/
structure RetryAttempt where
  id : Nat
  failedPaymentId : Nat
  attemptNumber : Nat
  scheduledAt : Time
  attemptedAt : Option Time
  status : AttemptStatus
deriving DecidableEq

/-- A row of `dunning_templates`. -/
structure DunningTemplate where
  id : Nat
  userId : Nat
  name : String
  subject : String
  bodyHtml : String
  bodyText : String
  delayDays : Int
  sequenceOrder : Int
  isActive : Bool
deriving DecidableEq

/-- A row of `dunning_emails`. -/
structure DunningEmail where
  id : Nat
  failedPaymentId : Nat
  templateId : Option Nat
  emailTo : String
  emailSubject : String
  status : DunningStatus
  sentAt : Option Time
deriving DecidableEq

/-- The Recovery Record Store: the tables the core engine touches, plus a
counter supplying fresh primary keys for inserted rows. -/
structure DB where
  connections : List StripeConnection
  payments : List FailedPayment
  attempts : List RetryAttempt
  templates : List DunningTemplate
  dunningEmailRows : List DunningEmail
  nextId : Nat
deriving DecidableEq

-- ── Retry schedule (`retry-logic` module) ────────────────────────────────

/-- `RETRY_SCHEDULE_DAYS = [3, 7, 14]`. -/
def RETRY_SCHEDULE_DAYS : List Int := [3, 7, 14]

/-- `MAX_ATTEMPTS = RETRY_SCHEDULE_DAYS.length`. -/
def MAX_ATTEMPTS : Nat := RETRY_SCHEDULE_DAYS.length

/-- `calculateNextRetryAt(recoveryStartedAt, nextAttemptNumber)`:
`null` once `nextAttemptNumber` exceeds `MAX_ATTEMPTS`, else the start
date plus the scheduled day offset. -/
def calculateNextRetryAt (recoveryStartedAt : Time) (nextAttemptNumber : Nat) :
    Option Time :=
  if nextAttemptNumber > MAX_ATTEMPTS then none
  else some (recoveryStartedAt +
    (RETRY_SCHEDULE_DAYS.getD (nextAttemptNumber - 1) 0) * msPerDay)

/-- `buildRetrySchedule(recoveryStartedAt)`: pairs `(attemptNumber, scheduledAt)`
for the whole fixed table. -/
def buildRetrySchedule (recoveryStartedAt : Time) : List (Nat × Time) :=
  RETRY_SCHEDULE_DAYS.enum.map
    (fun p => (p.1 + 1, recoveryStartedAt + p.2 * msPerDay))

-- ── Stripe pay call ──────────────────────────────────────────────────────

/-- The `error` object of a failed Stripe `/pay` response. -/
structure StripePayError where
  type : String
  code : Option String
  decline_code : Option String
  message : String
deriving DecidableEq

/-- What the HTTP layer did for one `POST /v1/invoices/:id/pay` call:
`ok` (2xx), a non-2xx response whose JSON body parsed to an error object,
a non-2xx response whose body could not be parsed, or `fetch` itself
rejecting (network failure). -/
inductive FetchOutcome
  | ok
  | declined (e : StripePayError)
  | badBody (statusCode : Nat) (statusText : String)
  | netError (msg : String)
deriving DecidableEq

/-- `attemptStripePayment`: normalises the HTTP outcome.  A thrown fetch
propagates (`Except.error`); any non-2xx response — 5xx included — is
returned as `success: false` with a parsed or synthesised error object. -/
def attemptStripePayment (outcome : FetchOutcome) :
    Except String (Bool × Option StripePayError) :=
  match outcome with
  | .ok => .ok (true, none)
  | .declined e => .ok (false, some e)
  | .badBody statusCode statusText =>
      .ok (false, some
        { type := "api_error", code := none, decline_code := none,
          message := "HTTP " ++ toString statusCode ++ " " ++ statusText })
  | .netError msg => .error msg

/-- The `RetryResult` returned by the executor. -/
structure RetryResult where
  success : Bool
  failedPaymentId : Nat
  attemptId : Nat
  attemptNumber : Nat
  error : Option String
  nextRetryAt : Option Time
deriving DecidableEq

/-- `stripeError?.decline_code ?? stripeError?.code ?? stripeError?.message
?? "unknown_error"`. -/
def declineMessage (stripeError : Option StripePayError) : String :=
  match stripeError with
  | none => "unknown_error"
  | some e =>
    match e.decline_code with
    | some d => d
    | none =>
      match e.code with
      | some c => c
      | none => e.message

/-- `executeRetryAttempt(failedPaymentId, attemptId)`.  Returns the store
as mutated so far together with the result; a thrown error is
`Except.error`, leaving exactly the mutations performed before the throw
(the `attemptedAt` stamp precedes the network call on purpose). -/
def executeRetryAttempt (db : DB) (failedPaymentId attemptId : Nat)
    (outcome : FetchOutcome) (now : Time) : DB × Except String RetryResult :=
  match db.payments.find? (fun p => p.id == failedPaymentId) with
  | none => (db, .error "Failed payment not found")
  | some payment =>
    if payment.status ≠ CaseStatus.active then
      (db, .error "not in active state")
    else if payment.stripeInvoiceId = none then
      (db, .error "no stripeInvoiceId")
    else
      match db.connections.find? (fun c => c.id == payment.stripeConnectionId) with
      | none => (db, .error "No Stripe connection")
      | some connection =>
        match connection.accessTokenDecrypted with
        | none => (db, .error "Failed to decrypt Stripe token")
        | some _accessToken =>
          -- step 3: stamp attemptedAt before the network call
          let db1 : DB := { db with attempts := db.attempts.map (fun a =>
            if a.id == attemptId then { a with attemptedAt := some now } else a) }
          -- step 4: call Stripe
          match attemptStripePayment outcome with
          | .error m => (db1, .error m)
          | .ok (success, stripeError) =>
            let attemptNumber :=
              match db1.attempts.find? (fun a => a.id == attemptId) with
              | some a => a.attemptNumber
              | none => 1
            if success then
              let db2 : DB := { db1 with attempts := db1.attempts.map (fun a =>
                if a.id == attemptId then
                  { a with status := AttemptStatus.success, attemptedAt := some now }
                else a) }
              let db3 : DB := { db2 with payments := db2.payments.map (fun p =>
                if p.id == failedPaymentId then
                  { p with status := CaseStatus.recovered,
                           recoveredAt := some now, updatedAt := now }
                else p) }
              let db4 : DB := { db3 with attempts := db3.attempts.map (fun a =>
                if a.failedPaymentId == failedPaymentId &&
                    a.status == AttemptStatus.pending then
                  { a with status := AttemptStatus.skipped }
                else a) }
              (db4, .ok { success := true, failedPaymentId := failedPaymentId,
                          attemptId := attemptId, attemptNumber := attemptNumber,
                          error := none, nextRetryAt := none })
            else
              let errorMessage := declineMessage stripeError
              let db2 : DB := { db1 with attempts := db1.attempts.map (fun a =>
                if a.id == attemptId then
                  { a with status := AttemptStatus.failed, attemptedAt := some now }
                else a) }
              let nextAttemptNumber := attemptNumber + 1
              let nextRetryAt :=
                match payment.recoveryStartedAt with
                | some r => calculateNextRetryAt r nextAttemptNumber
                | none => none
              match nextRetryAt with
              | some t =>
                let db3 : DB := { db2 with
                  attempts := db2.attempts ++
                    [{ id := db2.nextId, failedPaymentId := failedPaymentId,
                       attemptNumber := nextAttemptNumber, scheduledAt := t,
                       attemptedAt := none, status := AttemptStatus.pending }],
                  nextId := db2.nextId + 1 }
                (db3, .ok { success := false, failedPaymentId := failedPaymentId,
                            attemptId := attemptId, attemptNumber := attemptNumber,
                            error := some errorMessage, nextRetryAt := some t })
              | none =>
                let db3 : DB := { db2 with payments := db2.payments.map (fun p =>
                  if p.id == failedPaymentId then
                    { p with status := CaseStatus.paused, updatedAt := now }
                  else p) }
                (db3, .ok { success := false, failedPaymentId := failedPaymentId,
                            attemptId := attemptId, attemptNumber := attemptNumber,
                            error := some errorMessage, nextRetryAt := none })

-- ── Webhook ingestor (`/api/stripe/webhook`, connected-account events) ──

/-- The fields of a `StripeInvoice` payload the connected-account
handlers read. -/
structure StripeInvoice where
  id : String
  customer : String
  subscription : Option String
  amount_due : Int
  currency : String
  charge : Option String
  customer_email : Option String
  customer_name : Option String
  lpeMessage : Option String
  lpeDeclineCode : Option String
  lpeCode : Option String
deriving DecidableEq

/-- `invoice.last_payment_error?.message ?? invoice.last_payment_error?.code
?? "payment_failed"`. -/
def failureReasonOf (inv : StripeInvoice) : String :=
  match inv.lpeMessage with
  | some m => m
  | none =>
    match inv.lpeCode with
    | some c => c
    | none => "payment_failed"

/-- `invoice.last_payment_error?.decline_code ?? invoice.last_payment_error?.code
?? null`. -/
def failureCodeOf (inv : StripeInvoice) : Option String :=
  match inv.lpeDeclineCode with
  | some d => some d
  | none => inv.lpeCode

/-- `daysFromNow(days)`: `Date.now() + days * 24 * 60 * 60 * 1000`. -/
def daysFromNow (now : Time) (days : Int) : Time := now + days * msPerDay

/-- `handlePaymentFailed(stripeAccountId, invoice)`: look up the
connection, dedup against `(stripeConnectionId, stripeInvoiceId)`, and
otherwise create the case (status `active`, `recoveryStartedAt = now`)
together with retry attempt #1 at `daysFromNow(3)`. -/
def handlePaymentFailed (db : DB) (stripeAccountId : String)
    (inv : StripeInvoice) (now : Time) : DB :=
  match db.connections.find? (fun c => c.stripeAccountId == stripeAccountId) with
  | none => db
  | some connection =>
    match db.payments.find? (fun p =>
        p.stripeConnectionId == connection.id &&
        p.stripeInvoiceId == some inv.id) with
    | some _existing => db
    | none =>
      let newPayment : FailedPayment :=
        { id := db.nextId, userId := connection.userId,
          stripeConnectionId := connection.id,
          stripeInvoiceId := some inv.id,
          stripeCustomerId := inv.customer,
          customerEmail := inv.customer_email,
          customerName := inv.customer_name,
          amountCents := inv.amount_due, currency := inv.currency,
          status := CaseStatus.active,
          recoveryStartedAt := some now, recoveredAt := none,
          createdAt := now, updatedAt := now }
      let firstAttempt : RetryAttempt :=
        { id := db.nextId + 1, failedPaymentId := newPayment.id,
          attemptNumber := 1, scheduledAt := daysFromNow now 3,
          attemptedAt := none, status := AttemptStatus.pending }
      { db with payments := db.payments ++ [newPayment],
                attempts := db.attempts ++ [firstAttempt],
                nextId := db.nextId + 2 }

/-- `handlePaymentSucceeded(stripeAccountId, invoice)`: if an `active`
case exists for the `(connection, invoice)` pair, mark it recovered and
set every still-`pending` attempt of the case to `skipped`. -/
def handlePaymentSucceeded (db : DB) (stripeAccountId : String)
    (inv : StripeInvoice) (now : Time) : DB :=
  match db.connections.find? (fun c => c.stripeAccountId == stripeAccountId) with
  | none => db
  | some connection =>
    match db.payments.find? (fun p =>
        p.stripeConnectionId == connection.id &&
        p.stripeInvoiceId == some inv.id &&
        p.status == CaseStatus.active) with
    | none => db
    | some failed =>
      { db with
        payments := db.payments.map (fun p =>
          if p.id == failed.id then
            { p with status := CaseStatus.recovered,
                     recoveredAt := some now, updatedAt := now }
          else p),
        attempts := db.attempts.map (fun a =>
          if a.failedPaymentId == failed.id &&
              a.status == AttemptStatus.pending then
            { a with status := AttemptStatus.skipped }
          else a) }

-- ── Manual retry endpoint (`POST /api/failed-payments/:id/retry`) ────────

/-- `MAX_MANUAL_RETRIES_PER_DAY = 3`. -/
def MAX_MANUAL_RETRIES_PER_DAY : Nat := 3

/-- The HTTP responses the manual-retry route can produce (the 401 branch
is before the parts modelled here; the job enqueue is modelled as
succeeding). -/
inductive RouteResponse
  | notFound
  | forbidden
  | conflict (status : CaseStatus)
  | tooManyRetries
  | okCreated (attemptId : Nat) (attemptNumber : Nat)
deriving DecidableEq

/-- The route's rate-limit count: attempts of the case with
`scheduledAt >= now − 24h` — any status, any origin, no upper bound on
`scheduledAt`. -/
def windowAttemptCount (db : DB) (failedPaymentId : Nat) (now : Time) : Nat :=
  (db.attempts.filter (fun a =>
    a.failedPaymentId == failedPaymentId &&
    decide (now - 24 * 60 * 60 * 1000 ≤ a.scheduledAt))).length

/-- `POST /api/failed-payments/:id/retry` after the session check:
ownership, active-status, rate limit, then insert of a `pending` attempt
with `scheduledAt = now` and `attemptNumber = count(existing) + 1`. -/
def retryRoutePOST (db : DB) (failedPaymentId : Nat) (sessionUserId : Nat)
    (now : Time) : DB × RouteResponse :=
  match db.payments.find? (fun p => p.id == failedPaymentId) with
  | none => (db, .notFound)
  | some payment =>
    if payment.userId ≠ sessionUserId then (db, .forbidden)
    else if payment.status ≠ CaseStatus.active then
      (db, .conflict payment.status)
    else if MAX_MANUAL_RETRIES_PER_DAY ≤ windowAttemptCount db failedPaymentId now then
      (db, .tooManyRetries)
    else
      let attemptCount :=
        (db.attempts.filter (fun a => a.failedPaymentId == failedPaymentId)).length
      let attemptNumber := attemptCount + 1
      let attempt : RetryAttempt :=
        { id := db.nextId, failedPaymentId := failedPaymentId,
          attemptNumber := attemptNumber, scheduledAt := now,
          attemptedAt := none, status := AttemptStatus.pending }
      ({ db with attempts := db.attempts ++ [attempt], nextId := db.nextId + 1 },
       .okCreated attempt.id attemptNumber)

-- ── Library-level manual retry (`manualRetry` of the retry module) ───────

/-- The scheduling half of `manualRetry(failedPaymentId, userId)`: the
ownership query (with the attempts relation ordered by `attemptNumber`
descending, limit 1), the `recovered` guard, the paused→active
reactivation, and the insert of an immediate `pending` attempt.  Returns
the id of the inserted attempt. -/
def manualRetrySchedule (db : DB) (failedPaymentId userId : Nat) (now : Time) :
    DB × Except String Nat :=
  match db.payments.find? (fun p =>
      p.id == failedPaymentId && p.userId == userId) with
  | none => (db, .error "not found or not owned")
  | some payment =>
    if payment.status = CaseStatus.recovered then
      (db, .error "already recovered")
    else
      let db1 : DB :=
        if payment.status = CaseStatus.paused then
          { db with payments := db.payments.map (fun p =>
              if p.id == failedPaymentId then
                { p with status := CaseStatus.active, updatedAt := now }
              else p) }
        else db
      let caseAttempts := db.attempts.filter
        (fun a => a.failedPaymentId == failedPaymentId)
      let sortedDesc := caseAttempts.insertionSort
        (fun a b => b.attemptNumber ≤ a.attemptNumber)
      let nextAttemptNumber :=
        match sortedDesc.head? with
        | some lastAttempt => lastAttempt.attemptNumber + 1
        | none => 1
      let newAttempt : RetryAttempt :=
        { id := db1.nextId, failedPaymentId := failedPaymentId,
          attemptNumber := nextAttemptNumber, scheduledAt := now,
          attemptedAt := none, status := AttemptStatus.pending }
      ({ db1 with attempts := db1.attempts ++ [newAttempt],
                  nextId := db1.nextId + 1 },
       .ok newAttempt.id)

/-- `manualRetry`: schedule the immediate attempt, then execute it. -/
def manualRetry (db : DB) (failedPaymentId userId : Nat) (now : Time)
    (outcome : FetchOutcome) : DB × Except String RetryResult :=
  match manualRetrySchedule db failedPaymentId userId now with
  | (db1, .error e) => (db1, .error e)
  | (db1, .ok newAttemptId) =>
      executeRetryAttempt db1 failedPaymentId newAttemptId outcome now

-- ── Batch scan (`fetchDueRetries`) ───────────────────────────────────────

/-- A row returned by the retry batch scan. -/
structure DueRetry where
  failedPaymentId : Nat
  attemptId : Nat
  attemptNumber : Nat
  invoiceId : Option String
deriving DecidableEq

/-- `fetchDueRetries(limit)`: pending attempts with `scheduledAt <= now`,
inner-joined to their `active` case. -/
def fetchDueRetries (db : DB) (now : Time) (limit : Nat := 50) : List DueRetry :=
  (db.attempts.filterMap (fun a =>
    match db.payments.find? (fun p => p.id == a.failedPaymentId) with
    | some payment =>
      if payment.status == CaseStatus.active &&
          a.status == AttemptStatus.pending && decide (a.scheduledAt ≤ now) then
        some { failedPaymentId := a.failedPaymentId, attemptId := a.id,
               attemptNumber := a.attemptNumber,
               invoiceId := payment.stripeInvoiceId }
      else none
    | none => none)).take limit

-- ── Dunning scheduler (`fetchDueDunningEmails`) ──────────────────────────

/-- A `(case, template)` pair the dunning scan reports as due. -/
structure DueDunningEmail where
  failedPaymentId : Nat
  templateId : Nat
  sequenceOrder : Int
  customerEmail : String
  customerName : Option String
  amountCents : Int
  currency : String
  userId : Nat
deriving DecidableEq

/-- JavaScript truthiness of an optional string: `null` and `""` are falsy. -/
def strTruthy : Option String → Bool
  | none => false
  | some s => !(s == "")

/-- Whether template step `t` is due for a case created at `createdAt`:
`createdAt + delayDays <= now`. -/
def templateDue (createdAt : Time) (now : Time) (t : DunningTemplate) : Bool :=
  decide (createdAt + t.delayDays * msPerDay ≤ now)

/-- The template ids of every `dunning_emails` row of the case — any
status, so a `failed` send still counts as attempted. -/
def sentTemplateIds (db : DB) (failedPaymentId : Nat) : List Nat :=
  (db.dunningEmailRows.filter (fun e => e.failedPaymentId == failedPaymentId)).filterMap
    (fun e => e.templateId)

/-- The per-case template loop of `fetchDueDunningEmails`: walk the
sequence-ordered templates, `continue` past already-attempted ones,
return (and stop at) the first one whose delay has passed. -/
def firstDueTemplate (sent : List Nat) (createdAt now : Time) :
    List DunningTemplate → Option DunningTemplate
  | [] => none
  | t :: ts =>
    if sent.contains t.id then firstDueTemplate sent createdAt now ts
    else if templateDue createdAt now t then some t
    else firstDueTemplate sent createdAt now ts

/-- The user's active templates as the scan reads them:
`ORDER BY sequence_order`. -/
def orderedActiveTemplates (db : DB) (userId : Nat) : List DunningTemplate :=
  (db.templates.filter (fun t => t.userId == userId && t.isActive)).insertionSort
    (fun a b => a.sequenceOrder ≤ b.sequenceOrder)

/-- `fetchDueDunningEmails(batchSize)`: for each active case with a
customer email, report at most the first unattempted-and-due template
step. -/
def fetchDueDunningEmails (db : DB) (now : Time) (batchSize : Nat := 50) :
    List DueDunningEmail :=
  let activePayments := (db.payments.filter (fun p =>
    p.status == CaseStatus.active && p.customerEmail.isSome)).take batchSize
  activePayments.filterMap (fun payment =>
    if !(strTruthy payment.customerEmail) then none
    else
      let templates := orderedActiveTemplates db payment.userId
      match firstDueTemplate (sentTemplateIds db payment.id)
          payment.createdAt now templates with
      | none => none
      | some template =>
        some { failedPaymentId := payment.id, templateId := template.id,
               sequenceOrder := template.sequenceOrder,
               customerEmail := payment.customerEmail.getD "",
               customerName := payment.customerName,
               amountCents := payment.amountCents,
               currency := payment.currency, userId := payment.userId })

-- ── Template renderer (`renderTemplate`) ─────────────────────────────────

/-- One pass of JavaScript `String.replaceAll` over the character list:
scan left to right, splice in the replacement at each non-overlapping
occurrence of the (non-empty) pattern, and continue after it — the
replacement text is not rescanned within the same pass.  The fuel is the
length of the text, which each step strictly consumes. -/
def replaceAllCharsFuel (pat rep : List Char) : Nat → List Char → List Char
  | 0, s => s
  | _ + 1, [] => []
  | fuel + 1, c :: cs =>
    if pat.isPrefixOf (c :: cs) then
      rep ++ replaceAllCharsFuel pat rep fuel (List.drop pat.length (c :: cs))
    else
      c :: replaceAllCharsFuel pat rep fuel cs

/-- `String.replaceAll` on strings (the patterns used are always of the
form `\x7b\x7bname\x7d\x7d`, hence non-empty). -/
def jsReplaceAll (s pat rep : String) : String :=
  if pat.data.isEmpty then s
  else ⟨replaceAllCharsFuel pat.data rep.data s.data.length s.data⟩

/-- `renderTemplate(template, vars)`: successive `replaceAll` of each
variable's `\x7b\x7bkey\x7d\x7d` token, in iteration order of `vars`. -/
def renderTemplate (template : String) (vars : List (String × String)) : String :=
  vars.foldl (fun out kv =>
    jsReplaceAll out ("\x7b\x7b" ++ kv.1 ++ "\x7d\x7d") kv.2) template

/-- The variable set `executeDunningEmail` builds, in object-insertion
(= iteration) order: `customer_name`, `amount_due`, `update_link`;
`customer_name` is `payment.customerName || payment.customerEmail`. -/
def dunningVars (customerName : Option String) (customerEmail : String)
    (amountFormatted : String) (updateLink : String) : List (String × String) :=
  [("customer_name",
    if strTruthy customerName then customerName.getD "" else customerEmail),
   ("amount_due", amountFormatted),
   ("update_link", updateLink)]

-- ── Concrete fixtures ────────────────────────────────────────────────────

/-- A connected Stripe account whose token decrypts. -/
def sampleConnection : StripeConnection := ⟨1, 7, "acct_1", some "tok"⟩

/-- An active failed-payment case of `sampleConnection`'s user for invoice
`in_1`, created (and recovery started) at time 0. -/
def samplePayment : FailedPayment :=
  ⟨2, 7, 1, some "in_1", "cus_1", some "c@x.io", some "Jane", 4900, "usd",
   CaseStatus.active, some 0, none, 0, 0⟩

/-- The automatically scheduled attempt #1 of `samplePayment` (day 3). -/
def sampleAttempt1 : RetryAttempt := ⟨3, 2, 1, 3 * 86400000, none, AttemptStatus.pending⟩

/-- Store with the one active case and its pending attempt #1. -/
def sampleDB : DB := ⟨[sampleConnection], [samplePayment], [sampleAttempt1], [], [], 10⟩

/-- `sampleDB` with the case paused (retry schedule exhausted). -/
def samplePausedDB : DB :=
  ⟨[sampleConnection], [{ samplePayment with status := CaseStatus.paused }],
   [sampleAttempt1], [], [], 10⟩

/-- A parsed Stripe decline. -/
def sampleDecline : StripePayError :=
  ⟨"card_error", some "card_declined", some "insufficient_funds", "Your card was declined."⟩

-- ── C9 ───────────────────────────────────────────────────────────────────

/-- C9: `renderTemplate` replaces each variable's literal
`\x7b\x7bname\x7d\x7d` token everywhere it appears and does nothing
else: the spec's body with `customer_name = "Jane"`, `amount_due =
"$29.00"` renders to `"Hi Jane, pay $29.00"`; an unmatched token
`\x7b\x7bfoo\x7d\x7d` is left verbatim; a token occurring twice is
replaced at both occurrences. -/
theorem c9_render_template_literal_substitution :
    renderTemplate "Hi \x7b\x7bcustomer_name\x7d\x7d, pay \x7b\x7bamount_due\x7d\x7d"
      [("customer_name", "Jane"), ("amount_due", "$29.00")] = "Hi Jane, pay $29.00"
    ∧ renderTemplate "Hi \x7b\x7bcustomer_name\x7d\x7d, pay \x7b\x7bamount_due\x7d\x7d (\x7b\x7bfoo\x7d\x7d)"
      [("customer_name", "Jane"), ("amount_due", "$29.00")]
      = "Hi Jane, pay $29.00 (\x7b\x7bfoo\x7d\x7d)"
    ∧ renderTemplate "\x7b\x7bcustomer_name\x7d\x7d and \x7b\x7bcustomer_name\x7d\x7d"
      [("customer_name", "Jane"), ("amount_due", "$29.00")] = "Jane and Jane" := by
  decide

-- ── C10 ──────────────────────────────────────────────────────────────────

/-- C10: substitution is sequential in the iteration order
`customer_name`, `amount_due`, `update_link`, and each pass rescans the
previous pass's output: a customer whose stored name is the literal
string `\x7b\x7bamount_due\x7d\x7d` renders as the formatted amount —
while a value containing the token of an *earlier* variable stays
verbatim, showing the substitution is not simultaneous. -/
theorem c10_sequential_substitution_rescans :
    renderTemplate "Hi \x7b\x7bcustomer_name\x7d\x7d, pay \x7b\x7bamount_due\x7d\x7d"
      (dunningVars (some "\x7b\x7bamount_due\x7d\x7d") "x@y.z" "$29.00" "https://l")
      = "Hi $29.00, pay $29.00"
    ∧ renderTemplate "pay \x7b\x7bamount_due\x7d\x7d"
      (dunningVars (some "Jane") "x@y.z" "\x7b\x7bcustomer_name\x7d\x7d" "https://l")
      = "pay \x7b\x7bcustomer_name\x7d\x7d" := by
  decide

-- ── C1 counterexample ────────────────────────────────────────────────────

/-- C1 fails as stated: an HTTP 500 whose body is not a parsed decline is
*not* surfaced as a thrown error — the executor marks the attempt
`failed`, schedules attempt #2 from it, and reports a business-level
failure result. -/
theorem c1_http500_advances_schedule :
    ((executeRetryAttempt sampleDB 2 3 (.badBody 500 "Internal Server Error") 1000).1.attempts.find?
        (fun a => a.id == 3)).map (fun a => a.status) = some AttemptStatus.failed
    ∧ ((executeRetryAttempt sampleDB 2 3 (.badBody 500 "Internal Server Error") 1000).2.toOption.map
        (fun res => res.success)) = some false
    ∧ (executeRetryAttempt sampleDB 2 3 (.badBody 500 "Internal Server Error") 1000).1.attempts.length
        = 2 := by
  decide

-- ── C2 counterexample ────────────────────────────────────────────────────

/-- C2 fails as stated: a manual retry request against the HTTP endpoint
for a paused case is rejected with 409 Conflict, and nothing — neither
the case status nor the attempts — changes. -/
theorem c2_route_rejects_paused_409 :
    retryRoutePOST samplePausedDB 2 7 1000
      = (samplePausedDB, RouteResponse.conflict CaseStatus.paused) := by
  decide

-- ── C3 counterexample ────────────────────────────────────────────────────

/-- C3 fails as stated: the rate limit counts *every* retry attempt of
the case with `scheduledAt ≥ now − 24h`, not only manually-scheduled
ones — here the case's automatic attempt #1 (scheduled 3 days ahead)
fills one slot, so already the *third* manual request in the window is
rejected with 429 and creates no row. -/
theorem c3_third_manual_request_rejected :
    (retryRoutePOST sampleDB 2 7 1000).2 = RouteResponse.okCreated 10 2
    ∧ (retryRoutePOST (retryRoutePOST sampleDB 2 7 1000).1 2 7 1000).2
        = RouteResponse.okCreated 11 3
    ∧ (retryRoutePOST (retryRoutePOST (retryRoutePOST sampleDB 2 7 1000).1 2 7 1000).1 2 7 1000).2
        = RouteResponse.tooManyRetries
    ∧ (retryRoutePOST (retryRoutePOST (retryRoutePOST sampleDB 2 7 1000).1 2 7 1000).1 2 7 1000).1
        = (retryRoutePOST (retryRoutePOST sampleDB 2 7 1000).1 2 7 1000).1 := by
  decide

-- ── C5 counterexample ────────────────────────────────────────────────────

/-- C5 fails as stated: scheduling is not idempotent per (case, sequence)
— executing the same declined attempt twice (e.g. a redelivered job)
inserts two rows with sequence number 2 for the same case; no unique
constraint or status guard prevents the duplicate. -/
theorem c5_double_execution_duplicates_sequence :
    ((executeRetryAttempt
        (executeRetryAttempt sampleDB 2 3 (.declined sampleDecline) 1000).1
        2 3 (.declined sampleDecline) 2000).1.attempts.filter
      (fun a => a.failedPaymentId == 2 && a.attemptNumber == 2)).length = 2 := by
  decide

-- ── C1 amended theorem ───────────────────────────────────────────────────

/-- C1 (amended): when the provider call fails at the network level — the
HTTP request itself throws, as opposed to a response that parses (or is
synthesised) as a decline — the executor makes no business state
transition: every case row is untouched, every attempt keeps its id,
sequence number, schedule and status (only the pre-call `attemptedAt`
stamp may change), no next attempt is inserted, and the error is
re-thrown instead of being returned as a decline result. -/
theorem c1_network_error_no_business_transition (db : DB) (pid aid : Nat)
    (msg : String) (now : Time) :
    (executeRetryAttempt db pid aid (.netError msg) now).1.payments = db.payments
    ∧ (executeRetryAttempt db pid aid (.netError msg) now).1.attempts.map
        (fun a => (a.id, a.attemptNumber, a.scheduledAt, a.status))
      = db.attempts.map (fun a => (a.id, a.attemptNumber, a.scheduledAt, a.status))
    ∧ ∃ e, (executeRetryAttempt db pid aid (.netError msg) now).2 = .error e := by
  unfold executeRetryAttempt
  split
  · exact ⟨rfl, rfl, ⟨_, rfl⟩⟩
  · split
    · exact ⟨rfl, rfl, ⟨_, rfl⟩⟩
    · split
      · exact ⟨rfl, rfl, ⟨_, rfl⟩⟩
      · split
        · exact ⟨rfl, rfl, ⟨_, rfl⟩⟩
        · split
          · exact ⟨rfl, rfl, ⟨_, rfl⟩⟩
          · refine ⟨rfl, ?_, ⟨msg, rfl⟩⟩
            dsimp only [attemptStripePayment]
            rw [List.map_map]
            apply List.map_congr_left
            intro a _
            by_cases h : a.id = aid <;> simp [h]

-- ── Sorting helpers ──────────────────────────────────────────────────────

instance : IsTotal RetryAttempt (fun a b => b.attemptNumber ≤ a.attemptNumber) :=
  ⟨fun _ _ => Nat.le_total _ _⟩

instance : IsTrans RetryAttempt (fun a b => b.attemptNumber ≤ a.attemptNumber) :=
  ⟨fun _ _ _ h1 h2 => Nat.le_trans h2 h1⟩

/-- An empty head of the descending sort means the input was empty. -/
lemma insertionSortDesc_head?_none (l : List RetryAttempt)
    (h : (l.insertionSort (fun a b => b.attemptNumber ≤ a.attemptNumber)).head? = none) :
    l = [] := by
  have hp := List.perm_insertionSort (fun a b => b.attemptNumber ≤ a.attemptNumber) l
  cases hs : l.insertionSort (fun a b => b.attemptNumber ≤ a.attemptNumber) with
  | nil => rw [hs] at hp; exact (hp.nil_eq).symm
  | cons y ys => rw [hs] at h; simp at h

/-- The head of the sort descending by `attemptNumber` is a maximal
element of the input (`ORDER BY attempt_number DESC LIMIT 1`). -/
lemma insertionSortDesc_head?_some (l : List RetryAttempt) (x : RetryAttempt)
    (h : (l.insertionSort (fun a b => b.attemptNumber ≤ a.attemptNumber)).head? = some x) :
    x ∈ l ∧ ∀ a ∈ l, a.attemptNumber ≤ x.attemptNumber := by
  have hp := List.perm_insertionSort (fun a b => b.attemptNumber ≤ a.attemptNumber) l
  have hs := List.sorted_insertionSort (fun a b => b.attemptNumber ≤ a.attemptNumber) l
  cases hsort : l.insertionSort (fun a b => b.attemptNumber ≤ a.attemptNumber) with
  | nil => rw [hsort] at h; simp at h
  | cons y ys =>
    rw [hsort] at hp hs h
    have hyx : y = x := by simpa using h
    subst hyx
    constructor
    · exact hp.subset (List.mem_cons_self y ys)
    · intro a ha
      have : a ∈ y :: ys := hp.symm.subset ha
      rcases List.mem_cons.mp this with rfl | hmem
      · exact Nat.le_refl _
      · exact (List.sorted_cons.mp hs).1 a hmem

-- ── C2 amended theorem ───────────────────────────────────────────────────

/-- C2 (amended): the HTTP endpoint rejects a paused case with 409 (see
the counterexample), but the library-level `manualRetry` accepts it: the
scheduling half first reactivates the case to `active` and then inserts
a new pending attempt with `scheduledAt = now` and sequence number
`max(existing) + 1`. -/
theorem c2_manual_retry_lib_reactivates_paused (db : DB) (pid uid : Nat)
    (now : Time) (payment : FailedPayment)
    (hfind : db.payments.find? (fun p => p.id == pid && p.userId == uid) = some payment)
    (hpaused : payment.status = CaseStatus.paused) :
    ∃ (db1 : DB) (n : Nat),
      manualRetrySchedule db pid uid now = (db1, .ok db.nextId)
      ∧ (∀ p ∈ db1.payments, p.id = pid → p.status = CaseStatus.active)
      ∧ db1.attempts = db.attempts ++
          [{ id := db.nextId, failedPaymentId := pid, attemptNumber := n,
             scheduledAt := now, attemptedAt := none, status := AttemptStatus.pending }]
      ∧ (∀ a ∈ db.attempts, a.failedPaymentId = pid → a.attemptNumber < n)
      ∧ (n = 1 ∨ ∃ a ∈ db.attempts, a.failedPaymentId = pid ∧ a.attemptNumber + 1 = n) := by
  unfold manualRetrySchedule
  simp only [hfind]
  rw [hpaused]
  rw [if_neg (by intro hcon; cases hcon), if_pos rfl]
  refine ⟨_, _, rfl, ?_, rfl, ?_, ?_⟩
  · intro p hp hpid
    simp only [List.mem_map] at hp
    obtain ⟨q, hq, rfl⟩ := hp
    by_cases h : q.id = pid
    · simp [h]
    · rw [if_neg (by simpa using h)] at hpid ⊢
      exact absurd hpid h
  · intro a ha hcase
    cases hh : (List.insertionSort (fun a b => b.attemptNumber ≤ a.attemptNumber)
        (db.attempts.filter (fun a => a.failedPaymentId == pid))).head? with
    | none =>
      have hnil := insertionSortDesc_head?_none _ hh
      have : a ∈ db.attempts.filter (fun a => a.failedPaymentId == pid) :=
        List.mem_filter.mpr ⟨ha, by simpa using hcase⟩
      rw [hnil] at this
      cases this
    | some x =>
      have hspec := insertionSortDesc_head?_some _ _ hh
      have hin : a ∈ db.attempts.filter (fun a => a.failedPaymentId == pid) :=
        List.mem_filter.mpr ⟨ha, by simpa using hcase⟩
      exact Nat.lt_succ_of_le (hspec.2 a hin)
  · cases hh : (List.insertionSort (fun a b => b.attemptNumber ≤ a.attemptNumber)
        (db.attempts.filter (fun a => a.failedPaymentId == pid))).head? with
    | none => exact Or.inl rfl
    | some x =>
      have hspec := insertionSortDesc_head?_some _ _ hh
      have hx := List.mem_filter.mp hspec.1
      exact Or.inr ⟨x, hx.1, by simpa using hx.2, rfl⟩

/-- C2 witness: the amended theorem applied to the concrete paused case. -/
theorem c2_manual_retry_lib_reactivates_paused_witness :
    ∃ (db1 : DB) (n : Nat),
      manualRetrySchedule samplePausedDB 2 7 1000 = (db1, .ok samplePausedDB.nextId)
      ∧ (∀ p ∈ db1.payments, p.id = 2 → p.status = CaseStatus.active)
      ∧ db1.attempts = samplePausedDB.attempts ++
          [{ id := samplePausedDB.nextId, failedPaymentId := 2, attemptNumber := n,
             scheduledAt := 1000, attemptedAt := none, status := AttemptStatus.pending }]
      ∧ (∀ a ∈ samplePausedDB.attempts, a.failedPaymentId = 2 → a.attemptNumber < n)
      ∧ (n = 1 ∨ ∃ a ∈ samplePausedDB.attempts, a.failedPaymentId = 2 ∧ a.attemptNumber + 1 = n) :=
  c2_manual_retry_lib_reactivates_paused samplePausedDB 2 7 1000
    { samplePayment with status := CaseStatus.paused } (by decide) rfl

-- ── C3 amended theorem ───────────────────────────────────────────────────

/-- The attempt row step 6 of the route inserts: `scheduledAt = now`,
`attemptNumber = count(existing attempts of the case) + 1`. -/
def routeInsertedRow (db : DB) (pid : Nat) (now : Time) : RetryAttempt :=
  { id := db.nextId, failedPaymentId := pid,
    attemptNumber := (db.attempts.filter (fun a => a.failedPaymentId == pid)).length + 1,
    scheduledAt := now, attemptedAt := none, status := AttemptStatus.pending }

/-- An authorised, active, under-the-limit request inserts exactly the
one immediate attempt and reports 200. -/
lemma retryRoutePOST_ok (db : DB) (pid uid : Nat) (now : Time) (payment : FailedPayment)
    (hfind : db.payments.find? (fun p => p.id == pid) = some payment)
    (hown : payment.userId = uid) (hactive : payment.status = CaseStatus.active)
    (hwin : windowAttemptCount db pid now < MAX_MANUAL_RETRIES_PER_DAY) :
    retryRoutePOST db pid uid now =
      ({ db with attempts := db.attempts ++ [routeInsertedRow db pid now],
                 nextId := db.nextId + 1 },
       .okCreated db.nextId (routeInsertedRow db pid now).attemptNumber) := by
  unfold retryRoutePOST
  simp only [hfind]
  rw [if_neg (fun h => h hown)]
  rw [if_neg (by rw [hactive]; exact fun h => h rfl)]
  rw [if_neg (Nat.not_le.mpr hwin)]
  rfl

/-- At or above the limit the request is rejected with 429 and the store
is untouched. -/
lemma retryRoutePOST_tooMany (db : DB) (pid uid : Nat) (now : Time) (payment : FailedPayment)
    (hfind : db.payments.find? (fun p => p.id == pid) = some payment)
    (hown : payment.userId = uid) (hactive : payment.status = CaseStatus.active)
    (hwin : MAX_MANUAL_RETRIES_PER_DAY ≤ windowAttemptCount db pid now) :
    retryRoutePOST db pid uid now = (db, .tooManyRetries) := by
  unfold retryRoutePOST
  simp only [hfind]
  rw [if_neg (fun h => h hown)]
  rw [if_neg (by rw [hactive]; exact fun h => h rfl)]
  rw [if_pos hwin]

/-- Appending an attempt scheduled `now` for the case raises the
rate-limit count by one. -/
lemma windowAttemptCount_append (db : DB) (pid : Nat) (now : Time)
    (row : RetryAttempt) (nid : Nat)
    (hrowCase : row.failedPaymentId = pid) (hrowAt : row.scheduledAt = now) :
    windowAttemptCount { db with attempts := db.attempts ++ [row], nextId := nid } pid now
      = windowAttemptCount db pid now + 1 := by
  unfold windowAttemptCount
  rw [List.filter_append, List.length_append]
  have hpred : (row.failedPaymentId == pid &&
      decide (now - 24 * 60 * 60 * 1000 ≤ row.scheduledAt)) = true := by
    simp only [hrowCase, hrowAt, beq_self_eq_true, Bool.true_and, decide_eq_true_eq]
    exact sub_le_self now (by norm_num)
  rw [List.filter_cons]
  simp only [List.filter_nil]
  rw [if_pos hpred]
  rfl

/-- C3 (amended): the rolling-24h manual-retry limit is enforced against
*all* retry attempts of the case whose `scheduledAt` is at or after
`now − 24h` — automatic and future-scheduled rows count too (see the
counterexample).  When the case starts with no attempt in that range,
the first three manual requests each succeed and append exactly one row,
and the fourth is rejected with 429 and appends none. -/
theorem c3_rate_limit_counts_all_window_attempts (db : DB) (pid uid : Nat)
    (now : Time) (payment : FailedPayment)
    (hfind : db.payments.find? (fun p => p.id == pid) = some payment)
    (hown : payment.userId = uid) (hactive : payment.status = CaseStatus.active)
    (hwin0 : windowAttemptCount db pid now = 0) :
    ∃ n1 n2 n3,
      (retryRoutePOST db pid uid now).2 = .okCreated db.nextId n1
      ∧ (retryRoutePOST (retryRoutePOST db pid uid now).1 pid uid now).2
          = .okCreated (db.nextId + 1) n2
      ∧ (retryRoutePOST (retryRoutePOST (retryRoutePOST db pid uid now).1 pid uid now).1 pid uid now).2
          = .okCreated (db.nextId + 2) n3
      ∧ (retryRoutePOST (retryRoutePOST (retryRoutePOST db pid uid now).1 pid uid now).1 pid uid now).1.attempts.length
          = db.attempts.length + 3
      ∧ retryRoutePOST
          (retryRoutePOST (retryRoutePOST (retryRoutePOST db pid uid now).1 pid uid now).1 pid uid now).1
          pid uid now
        = ((retryRoutePOST (retryRoutePOST (retryRoutePOST db pid uid now).1 pid uid now).1 pid uid now).1,
           .tooManyRetries) := by
  have h1 := retryRoutePOST_ok db pid uid now payment hfind hown hactive
    (by rw [hwin0]; decide)
  have hw1 : windowAttemptCount (retryRoutePOST db pid uid now).1 pid now = 1 := by
    rw [h1]
    dsimp only
    rw [windowAttemptCount_append db pid now (routeInsertedRow db pid now) (db.nextId + 1) rfl rfl,
        hwin0]
  have h2 := retryRoutePOST_ok (retryRoutePOST db pid uid now).1 pid uid now payment
    (by rw [h1]; exact hfind) hown hactive (by rw [hw1]; decide)
  have hw2 : windowAttemptCount
      (retryRoutePOST (retryRoutePOST db pid uid now).1 pid uid now).1 pid now = 2 := by
    rw [h2]
    dsimp only
    rw [windowAttemptCount_append _ pid now _ _ rfl rfl, hw1]
  have h3 := retryRoutePOST_ok
    (retryRoutePOST (retryRoutePOST db pid uid now).1 pid uid now).1 pid uid now payment
    (by rw [h2, h1]; exact hfind) hown hactive (by rw [hw2]; decide)
  have hw3 : windowAttemptCount
      (retryRoutePOST (retryRoutePOST (retryRoutePOST db pid uid now).1 pid uid now).1 pid uid now).1
      pid now = 3 := by
    rw [h3]
    dsimp only
    rw [windowAttemptCount_append _ pid now _ _ rfl rfl, hw2]
  have h4 := retryRoutePOST_tooMany
    (retryRoutePOST (retryRoutePOST (retryRoutePOST db pid uid now).1 pid uid now).1 pid uid now).1
    pid uid now payment (by rw [h3, h2, h1]; exact hfind) hown hactive (by rw [hw3]; decide)
  refine ⟨_, _, _, by rw [h1], by rw [h2, h1], by rw [h3, h2, h1], ?_, h4⟩
  rw [h3, h2, h1]
  simp [List.length_append]

/-- Store with the one active case and no retry attempts at all. -/
def sampleNoAttemptDB : DB := ⟨[sampleConnection], [samplePayment], [], [], [], 10⟩

/-- C3 witness: the amended theorem applied to the concrete active case
with an empty 24h window. -/
theorem c3_rate_limit_counts_all_window_attempts_witness :
    ∃ n1 n2 n3,
      (retryRoutePOST sampleNoAttemptDB 2 7 1000).2 = .okCreated sampleNoAttemptDB.nextId n1
      ∧ (retryRoutePOST (retryRoutePOST sampleNoAttemptDB 2 7 1000).1 2 7 1000).2
          = .okCreated (sampleNoAttemptDB.nextId + 1) n2
      ∧ (retryRoutePOST (retryRoutePOST (retryRoutePOST sampleNoAttemptDB 2 7 1000).1 2 7 1000).1 2 7 1000).2
          = .okCreated (sampleNoAttemptDB.nextId + 2) n3
      ∧ (retryRoutePOST (retryRoutePOST (retryRoutePOST sampleNoAttemptDB 2 7 1000).1 2 7 1000).1 2 7 1000).1.attempts.length
          = sampleNoAttemptDB.attempts.length + 3
      ∧ retryRoutePOST
          (retryRoutePOST (retryRoutePOST (retryRoutePOST sampleNoAttemptDB 2 7 1000).1 2 7 1000).1 2 7 1000).1
          2 7 1000
        = ((retryRoutePOST (retryRoutePOST (retryRoutePOST sampleNoAttemptDB 2 7 1000).1 2 7 1000).1 2 7 1000).1,
           .tooManyRetries) :=
  c3_rate_limit_counts_all_window_attempts sampleNoAttemptDB 2 7 1000 samplePayment
    (by decide) rfl rfl (by decide)

-- ── C5 / C6: webhook idempotency and the fixed schedule ──────────────────

/-- Re-delivering `payment_failed` for the same `(account, invoice)` is a
no-op: the second call returns the store of the first unchanged. -/
lemma handlePaymentFailed_idem (db : DB) (acct : String) (inv : StripeInvoice)
    (now now2 : Time) :
    handlePaymentFailed (handlePaymentFailed db acct inv now) acct inv now2
      = handlePaymentFailed db acct inv now := by
  cases hconn : db.connections.find? (fun c => c.stripeAccountId == acct) with
  | none => simp [handlePaymentFailed, hconn]
  | some conn =>
    cases hex : db.payments.find? (fun p =>
        p.stripeConnectionId == conn.id && p.stripeInvoiceId == some inv.id) with
    | some p => simp [handlePaymentFailed, hconn, hex]
    | none =>
      simp only [handlePaymentFailed, hconn, hex]
      rw [List.find?_append, hex, Option.none_or]
      simp

/-- C6: processing a second `payment_failed` webhook event carrying the
same (gateway account, external invoice id) is a no-op — the whole
store, cases and attempts included, is exactly what the first delivery
left, so no second case and no second attempt #1 is ever created. -/
theorem c6_payment_failed_redelivery_noop (db : DB) (acct : String)
    (inv : StripeInvoice) (now now2 : Time) :
    handlePaymentFailed (handlePaymentFailed db acct inv now) acct inv now2
      = handlePaymentFailed db acct inv now :=
  handlePaymentFailed_idem db acct inv now now2

/-- C5 (amended): the automatic schedule is exactly T+3d, T+7d, T+14d
with nothing beyond the third attempt, and webhook-side scheduling is
idempotent (re-delivery leaves the number of attempt-#1 rows unchanged).
Executor-side scheduling, however, is *not* idempotent per (case,
sequence): see the counterexample, where a double execution duplicates
sequence number 2. -/
theorem c5_schedule_exact_and_webhook_idempotent :
    (∀ T : Time, buildRetrySchedule T =
        [(1, T + 3 * msPerDay), (2, T + 7 * msPerDay), (3, T + 14 * msPerDay)])
    ∧ (∀ T : Time, calculateNextRetryAt T 1 = some (T + 3 * msPerDay)
        ∧ calculateNextRetryAt T 2 = some (T + 7 * msPerDay)
        ∧ calculateNextRetryAt T 3 = some (T + 14 * msPerDay))
    ∧ (∀ (T : Time) (n : Nat), MAX_ATTEMPTS < n → calculateNextRetryAt T n = none)
    ∧ (∀ (db : DB) (acct : String) (inv : StripeInvoice) (now now2 : Time),
        ((handlePaymentFailed (handlePaymentFailed db acct inv now) acct inv now2).attempts.filter
            (fun a => a.attemptNumber == 1)).length
          = ((handlePaymentFailed db acct inv now).attempts.filter
            (fun a => a.attemptNumber == 1)).length) := by
  refine ⟨fun T => rfl, fun T => ⟨rfl, rfl, rfl⟩, ?_, ?_⟩
  · intro T n h
    unfold calculateNextRetryAt
    rw [if_pos h]
  · intro db acct inv now now2
    rw [handlePaymentFailed_idem]

/-- C5 witness: the schedule at T = 0, exhaustion at attempt 4. -/
theorem c5_schedule_exact_and_webhook_idempotent_witness :
    buildRetrySchedule 0 =
      [(1, (0 : Time) + 3 * msPerDay), (2, (0 : Time) + 7 * msPerDay),
       (3, (0 : Time) + 14 * msPerDay)]
    ∧ calculateNextRetryAt 0 4 = none :=
  ⟨c5_schedule_exact_and_webhook_idempotent.1 0,
   c5_schedule_exact_and_webhook_idempotent.2.2.1 0 4 (by decide)⟩

-- ── C7: exhaustion pauses the case and stops the automatic schedule ──────

/-- Stamping `attemptedAt` does not disturb lookup by id. -/
lemma find?_id_map_stamp (l : List RetryAttempt) (aid : Nat) (now : Time)
    (a : RetryAttempt) (h : l.find? (fun x => x.id == aid) = some a) :
    (l.map (fun x => if x.id == aid then { x with attemptedAt := some now } else x)).find?
        (fun x => x.id == aid)
      = some { a with attemptedAt := some now } := by
  rw [List.find?_map]
  have hcomp : ((fun x : RetryAttempt => x.id == aid) ∘
      (fun x => if x.id == aid then { x with attemptedAt := some now } else x))
      = (fun x : RetryAttempt => x.id == aid) := by
    funext x
    by_cases hx : x.id = aid <;> simp [Function.comp, hx]
  rw [hcomp, h]
  have ha := List.find?_some (p := fun x : RetryAttempt => x.id == aid) h
  simp only [Option.map_some']
  rw [if_pos ha]

/-- A decline of the case's attempt #3 pauses the case: every row with
the case's id turns `paused`, no attempt row is inserted, and the result
reports `nextRetryAt = none`. -/
lemma executeRetryAttempt_third_decline_pauses (db : DB) (pid aid : Nat)
    (now : Time) (e : StripePayError) (payment : FailedPayment)
    (connection : StripeConnection) (a : RetryAttempt)
    (hfind : db.payments.find? (fun p => p.id == pid) = some payment)
    (hactive : payment.status = CaseStatus.active)
    (hinv : payment.stripeInvoiceId ≠ none)
    (hconn : db.connections.find? (fun c => c.id == payment.stripeConnectionId) = some connection)
    (htok : connection.accessTokenDecrypted.isSome)
    (hatt : db.attempts.find? (fun x => x.id == aid) = some a)
    (hnum : a.attemptNumber = 3) :
    (∀ p ∈ (executeRetryAttempt db pid aid (.declined e) now).1.payments,
        p.id = pid → p.status = CaseStatus.paused)
    ∧ (executeRetryAttempt db pid aid (.declined e) now).1.attempts.length
        = db.attempts.length
    ∧ ∃ res, (executeRetryAttempt db pid aid (.declined e) now).2 = .ok res
        ∧ res.success = false ∧ res.nextRetryAt = none := by
  obtain ⟨tok, htok'⟩ := Option.isSome_iff_exists.mp htok
  unfold executeRetryAttempt
  simp only [hfind]
  rw [if_neg (by rw [hactive]; exact fun h => h rfl)]
  rw [if_neg hinv]
  simp only [hconn, htok']
  dsimp only [attemptStripePayment]
  rw [find?_id_map_stamp db.attempts aid now a hatt]
  have hnext : (match payment.recoveryStartedAt with
      | some r => calculateNextRetryAt r ({ a with attemptedAt := some now }.attemptNumber + 1)
      | none => none) = (none : Option Time) := by
    cases payment.recoveryStartedAt with
    | none => rfl
    | some r =>
      show calculateNextRetryAt r (a.attemptNumber + 1) = none
      rw [hnum]
      unfold calculateNextRetryAt
      rw [if_pos (by decide)]
  rw [hnext]
  refine ⟨?_, by simp, ⟨_, rfl, rfl, rfl⟩⟩
  intro p hp hpid
  rcases List.mem_map.mp hp with ⟨q, hq, hfq⟩
  subst hfq
  by_cases h : q.id = pid
  · simp [h]
  · rw [if_neg (by simpa using h)] at hpid ⊢
    exact absurd hpid h

/-- The executor refuses a paused case before touching anything. -/
lemma executeRetryAttempt_paused_error (db : DB) (pid aid : Nat)
    (outcome : FetchOutcome) (now : Time) (payment : FailedPayment)
    (hfind : db.payments.find? (fun p => p.id == pid) = some payment)
    (hpaused : payment.status = CaseStatus.paused) :
    executeRetryAttempt db pid aid outcome now = (db, .error "not in active state") := by
  unfold executeRetryAttempt
  simp only [hfind]
  rw [if_pos (by rw [hpaused]; intro h; cases h)]

/-- Every row the retry scan returns belongs to a case that is `active`. -/
lemma fetchDueRetries_only_active (db : DB) (now : Time) (limit : Nat)
    (r : DueRetry) (hr : r ∈ fetchDueRetries db now limit) :
    ∃ p ∈ db.payments, p.id = r.failedPaymentId ∧ p.status = CaseStatus.active := by
  unfold fetchDueRetries at hr
  have hr' := List.take_subset limit _ hr
  rcases List.mem_filterMap.mp hr' with ⟨a, ha, hga⟩
  cases hfp : db.payments.find? (fun p => p.id == a.failedPaymentId) with
  | none => simp [hfp] at hga
  | some p =>
    simp only [hfp] at hga
    split at hga
    · rename_i hcond
      have hmem := List.mem_of_find?_eq_some hfp
      have hpid := List.find?_some (p := fun p : FailedPayment => p.id == a.failedPaymentId) hfp
      refine ⟨p, hmem, ?_, ?_⟩
      · cases hga
        exact beq_iff_eq.mp hpid
      · exact beq_iff_eq.mp ((Bool.and_eq_true _ _).mp ((Bool.and_eq_true _ _).mp hcond).1).1
    · cases hga

/-- C7: (i) a decline of the 3rd attempt of an active case turns the
case `paused` without inserting any further attempt; (ii) once a case is
paused the executor rejects it with a thrown error and mutates nothing;
(iii) the batch scan never returns work for a case that is not `active`
— hence no further automatic RetryAttempt row is ever created for a
paused case by the scheduler or executor. -/
theorem c7_exhaustion_pauses_and_stops :
    (∀ (db : DB) (pid aid : Nat) (now : Time) (e : StripePayError)
        (payment : FailedPayment) (connection : StripeConnection) (a : RetryAttempt),
      db.payments.find? (fun p => p.id == pid) = some payment →
      payment.status = CaseStatus.active →
      payment.stripeInvoiceId ≠ none →
      db.connections.find? (fun c => c.id == payment.stripeConnectionId) = some connection →
      connection.accessTokenDecrypted.isSome →
      db.attempts.find? (fun x => x.id == aid) = some a →
      a.attemptNumber = 3 →
      (∀ p ∈ (executeRetryAttempt db pid aid (.declined e) now).1.payments,
          p.id = pid → p.status = CaseStatus.paused)
      ∧ (executeRetryAttempt db pid aid (.declined e) now).1.attempts.length
          = db.attempts.length
      ∧ ∃ res, (executeRetryAttempt db pid aid (.declined e) now).2 = .ok res
          ∧ res.success = false ∧ res.nextRetryAt = none)
    ∧ (∀ (db : DB) (pid aid : Nat) (outcome : FetchOutcome) (now : Time)
        (payment : FailedPayment),
      db.payments.find? (fun p => p.id == pid) = some payment →
      payment.status = CaseStatus.paused →
      executeRetryAttempt db pid aid outcome now = (db, .error "not in active state"))
    ∧ (∀ (db : DB) (now : Time) (limit : Nat) (r : DueRetry),
      r ∈ fetchDueRetries db now limit →
      ∃ p ∈ db.payments, p.id = r.failedPaymentId ∧ p.status = CaseStatus.active) :=
  ⟨fun db pid aid now e payment connection a h1 h2 h3 h4 h5 h6 h7 =>
      executeRetryAttempt_third_decline_pauses db pid aid now e payment connection a
        h1 h2 h3 h4 h5 h6 h7,
   fun db pid aid outcome now payment h1 h2 =>
      executeRetryAttempt_paused_error db pid aid outcome now payment h1 h2,
   fun db now limit r hr => fetchDueRetries_only_active db now limit r hr⟩

/-- The case's automatically scheduled attempt #3 (day 14), pending. -/
def sampleThirdAttempt : RetryAttempt := ⟨3, 2, 3, 14 * 86400000, none, AttemptStatus.pending⟩

/-- Store in which the case is on its final automatic attempt. -/
def sampleExhaustDB : DB :=
  ⟨[sampleConnection], [samplePayment], [sampleThirdAttempt], [], [], 10⟩

/-- C7 witness: the three parts at concrete stores — exhaustion of the
third attempt, the executor's refusal on the paused case, and the scan
reporting only the active case. -/
theorem c7_exhaustion_pauses_and_stops_witness :
    ((∀ p ∈ (executeRetryAttempt sampleExhaustDB 2 3 (.declined sampleDecline) 1000).1.payments,
        p.id = 2 → p.status = CaseStatus.paused)
      ∧ (executeRetryAttempt sampleExhaustDB 2 3 (.declined sampleDecline) 1000).1.attempts.length
          = sampleExhaustDB.attempts.length
      ∧ ∃ res, (executeRetryAttempt sampleExhaustDB 2 3 (.declined sampleDecline) 1000).2 = .ok res
          ∧ res.success = false ∧ res.nextRetryAt = none)
    ∧ executeRetryAttempt samplePausedDB 2 3 FetchOutcome.ok 1000
        = (samplePausedDB, .error "not in active state")
    ∧ ∃ p ∈ sampleDB.payments,
        p.id = (⟨2, 3, 1, some "in_1"⟩ : DueRetry).failedPaymentId
        ∧ p.status = CaseStatus.active :=
  ⟨c7_exhaustion_pauses_and_stops.1 sampleExhaustDB 2 3 1000 sampleDecline
      samplePayment sampleConnection sampleThirdAttempt
      (by decide) rfl (by decide) (by decide) (by decide) (by decide) rfl,
   c7_exhaustion_pauses_and_stops.2.1 samplePausedDB 2 3 FetchOutcome.ok 1000
      { samplePayment with status := CaseStatus.paused } (by decide) rfl,
   c7_exhaustion_pauses_and_stops.2.2 sampleDB (100 * 86400000) 50
      ⟨2, 3, 1, some "in_1"⟩ (by decide)⟩

-- ── C4: recovery is applied exactly once and clears pending attempts ─────

/-- A map that preserves ids commutes with lookup by id. -/
lemma find?_payments_map (l : List FailedPayment) (pid : Nat)
    (g : FailedPayment → FailedPayment) (hg : ∀ p, (g p).id = p.id) :
    (l.map g).find? (fun p => p.id == pid) = (l.find? (fun p => p.id == pid)).map g := by
  rw [List.find?_map]
  have hpred : ((fun p : FailedPayment => p.id == pid) ∘ g)
      = (fun p : FailedPayment => p.id == pid) := by
    funext x
    simp [Function.comp, hg x]
  rw [hpred]

/-- The executor raises its precondition error on any non-active case. -/
lemma executeRetryAttempt_nonactive_error (db : DB) (pid aid : Nat)
    (outcome : FetchOutcome) (now : Time) (payment : FailedPayment)
    (hfind : db.payments.find? (fun p => p.id == pid) = some payment)
    (hne : payment.status ≠ CaseStatus.active) :
    executeRetryAttempt db pid aid outcome now = (db, .error "not in active state") := by
  unfold executeRetryAttempt
  simp only [hfind]
  rw [if_pos hne]

/-- The fully evaluated success path of the executor: attempt `success`,
case `recovered`, remaining pending attempts `skipped`. -/
lemma executeRetryAttempt_success_run (db : DB) (pid aid : Nat) (now : Time)
    (payment : FailedPayment) (connection : StripeConnection)
    (hfind : db.payments.find? (fun p => p.id == pid) = some payment)
    (hactive : payment.status = CaseStatus.active)
    (hinv : payment.stripeInvoiceId ≠ none)
    (hconn : db.connections.find? (fun c => c.id == payment.stripeConnectionId) = some connection)
    (htok : connection.accessTokenDecrypted.isSome) :
    ∃ n, executeRetryAttempt db pid aid .ok now =
      ({ db with
          payments := db.payments.map (fun p =>
            if p.id == pid then
              { p with status := CaseStatus.recovered, recoveredAt := some now,
                       updatedAt := now }
            else p),
          attempts := ((db.attempts.map (fun x =>
              if x.id == aid then { x with attemptedAt := some now } else x)).map (fun x =>
              if x.id == aid then
                { x with status := AttemptStatus.success, attemptedAt := some now }
              else x)).map (fun x =>
              if x.failedPaymentId == pid && x.status == AttemptStatus.pending then
                { x with status := AttemptStatus.skipped }
              else x) },
       .ok { success := true, failedPaymentId := pid, attemptId := aid,
             attemptNumber := n, error := none, nextRetryAt := none }) := by
  obtain ⟨tok, htok'⟩ := Option.isSome_iff_exists.mp htok
  refine ⟨(match (db.attempts.map (fun x =>
      if x.id == aid then { x with attemptedAt := some now } else x)).find?
      (fun x => x.id == aid) with
    | some a => a.attemptNumber
    | none => 1), ?_⟩
  unfold executeRetryAttempt
  simp only [hfind]
  rw [if_neg (by rw [hactive]; exact fun h => h rfl)]
  rw [if_neg hinv]
  simp only [hconn, htok']
  rfl

/-- Consequences of a successful retry execution: success result, case
recovered with `recoveredAt` stamped, no pending attempt left for the
case, the executed attempt marked `success`, and any later execution for
the case refused without mutation. -/
lemma executeRetryAttempt_success_recovers (db : DB) (pid aid : Nat) (now : Time)
    (payment : FailedPayment) (connection : StripeConnection)
    (hfind : db.payments.find? (fun p => p.id == pid) = some payment)
    (hactive : payment.status = CaseStatus.active)
    (hinv : payment.stripeInvoiceId ≠ none)
    (hconn : db.connections.find? (fun c => c.id == payment.stripeConnectionId) = some connection)
    (htok : connection.accessTokenDecrypted.isSome) :
    (∃ res, (executeRetryAttempt db pid aid .ok now).2 = .ok res ∧ res.success = true)
    ∧ (∀ p ∈ (executeRetryAttempt db pid aid .ok now).1.payments,
        p.id = pid → p.status = CaseStatus.recovered ∧ p.recoveredAt = some now)
    ∧ (∀ b ∈ (executeRetryAttempt db pid aid .ok now).1.attempts,
        b.failedPaymentId = pid → b.status ≠ AttemptStatus.pending)
    ∧ (∀ b ∈ (executeRetryAttempt db pid aid .ok now).1.attempts,
        b.id = aid → b.status = AttemptStatus.success)
    ∧ (∀ (aid2 : Nat) (outcome2 : FetchOutcome) (now2 : Time),
        executeRetryAttempt (executeRetryAttempt db pid aid .ok now).1 pid aid2 outcome2 now2
          = ((executeRetryAttempt db pid aid .ok now).1, .error "not in active state")) := by
  obtain ⟨n, hrun⟩ :=
    executeRetryAttempt_success_run db pid aid now payment connection
      hfind hactive hinv hconn htok
  have hbeq := List.find?_some (p := fun p : FailedPayment => p.id == pid) hfind
  refine ⟨⟨_, by rw [hrun], rfl⟩, ?_, ?_, ?_, ?_⟩
  · rw [hrun]
    intro p hp hpid
    rcases List.mem_map.mp hp with ⟨q, hq, hfq⟩
    subst hfq
    by_cases h : q.id = pid
    · simp [h]
    · rw [if_neg (by simpa using h)] at hpid ⊢
      exact absurd hpid h
  · rw [hrun]
    intro b hb hbc
    rcases List.mem_map.mp hb with ⟨c, hc, hfc⟩
    subst hfc
    by_cases hcnd : (c.failedPaymentId == pid && c.status == AttemptStatus.pending) = true
    · rw [if_pos hcnd] at hbc ⊢
      intro h
      cases h
    · rw [if_neg hcnd] at hbc ⊢
      intro hpend
      exact hcnd (by simp [hbc, hpend])
  · rw [hrun]
    intro b hb hbid
    rcases List.mem_map.mp hb with ⟨c, hc, hfc⟩
    subst hfc
    have hcid : c.id = aid := by
      by_cases h3 : (c.failedPaymentId == pid && c.status == AttemptStatus.pending) = true
      · rw [if_pos h3] at hbid; exact hbid
      · rw [if_neg h3] at hbid; exact hbid
    rcases List.mem_map.mp hc with ⟨d, hd, hdc⟩
    have hdid : d.id = aid := by
      by_cases h4 : (d.id == aid) = true
      · rw [← hdc] at hcid; rw [if_pos h4] at hcid; exact hcid
      · rw [← hdc] at hcid; rw [if_neg h4] at hcid; exact hcid
    have hcs : c.status = AttemptStatus.success := by
      rw [← hdc, if_pos (beq_iff_eq.mpr hdid)]
    rw [if_neg (by simp [hcs])]
    exact hcs
  · intro aid2 outcome2 now2
    rw [hrun]
    have hg : ∀ p : FailedPayment,
        ((if p.id == pid then
            { p with status := CaseStatus.recovered, recoveredAt := some now,
                     updatedAt := now }
          else p) : FailedPayment).id = p.id := by
      intro p
      by_cases h : p.id = pid <;> simp [h]
    have hfind2 : ((db.payments.map (fun p =>
        if p.id == pid then
          { p with status := CaseStatus.recovered, recoveredAt := some now,
                   updatedAt := now }
        else p)).find? (fun p => p.id == pid))
        = some (if payment.id == pid then
            { payment with status := CaseStatus.recovered, recoveredAt := some now,
                           updatedAt := now }
          else payment) := by
      rw [find?_payments_map _ pid _ hg, hfind]
      rfl
    rw [if_pos hbeq] at hfind2
    exact executeRetryAttempt_nonactive_error _ pid aid2 outcome2 now2 _ hfind2
      (by intro h; cases h)

/-- Consequences of `payment_succeeded` on an active case: recovered with
`recoveredAt`, no pending attempt left, and the second delivery a no-op. -/
lemma handlePaymentSucceeded_recovers (db : DB) (acct : String) (inv : StripeInvoice)
    (now now2 : Time) (connection : StripeConnection) (failed : FailedPayment)
    (hconn : db.connections.find? (fun c => c.stripeAccountId == acct) = some connection)
    (hfound : db.payments.find? (fun p => p.stripeConnectionId == connection.id
        && p.stripeInvoiceId == some inv.id && p.status == CaseStatus.active) = some failed)
    (huniq : ∀ p ∈ db.payments, p.stripeConnectionId = connection.id →
        p.stripeInvoiceId = some inv.id → p.status = CaseStatus.active → p.id = failed.id) :
    (∀ p ∈ (handlePaymentSucceeded db acct inv now).payments,
        p.id = failed.id → p.status = CaseStatus.recovered ∧ p.recoveredAt = some now)
    ∧ (∀ b ∈ (handlePaymentSucceeded db acct inv now).attempts,
        b.failedPaymentId = failed.id → b.status ≠ AttemptStatus.pending)
    ∧ handlePaymentSucceeded (handlePaymentSucceeded db acct inv now) acct inv now2
        = handlePaymentSucceeded db acct inv now := by
  have hrun : handlePaymentSucceeded db acct inv now =
      { db with
        payments := db.payments.map (fun p =>
          if p.id == failed.id then
            { p with status := CaseStatus.recovered, recoveredAt := some now,
                     updatedAt := now }
          else p),
        attempts := db.attempts.map (fun a =>
          if a.failedPaymentId == failed.id && a.status == AttemptStatus.pending then
            { a with status := AttemptStatus.skipped }
          else a) } := by
    unfold handlePaymentSucceeded
    simp only [hconn, hfound]
  refine ⟨?_, ?_, ?_⟩
  · rw [hrun]
    intro p hp hpid
    rcases List.mem_map.mp hp with ⟨q, hq, hfq⟩
    subst hfq
    by_cases h : q.id = failed.id
    · simp [h]
    · rw [if_neg (by simpa using h)] at hpid ⊢
      exact absurd hpid h
  · rw [hrun]
    intro b hb hbc
    rcases List.mem_map.mp hb with ⟨c, hc, hfc⟩
    subst hfc
    by_cases hcnd : (c.failedPaymentId == failed.id && c.status == AttemptStatus.pending) = true
    · rw [if_pos hcnd] at hbc ⊢
      intro h
      cases h
    · rw [if_neg hcnd] at hbc ⊢
      intro hpend
      exact hcnd (by simp [hbc, hpend])
  · rw [hrun]
    have hnone : ((db.payments.map (fun p =>
        if p.id == failed.id then
          { p with status := CaseStatus.recovered, recoveredAt := some now,
                   updatedAt := now }
        else p)).find? (fun p => p.stripeConnectionId == connection.id
          && p.stripeInvoiceId == some inv.id && p.status == CaseStatus.active)) = none := by
      rw [List.find?_eq_none]
      intro x hx
      rcases List.mem_map.mp hx with ⟨q, hq, hfq⟩
      subst hfq
      by_cases hqid : q.id = failed.id
      · rw [if_pos (beq_iff_eq.mpr hqid)]
        simp
      · rw [if_neg (by simpa using hqid)]
        intro hpred
        have h1 := ((Bool.and_eq_true _ _).mp hpred).1
        have h2 := ((Bool.and_eq_true _ _).mp hpred).2
        have h11 := ((Bool.and_eq_true _ _).mp h1).1
        have h12 := ((Bool.and_eq_true _ _).mp h1).2
        exact hqid (huniq q hq (beq_iff_eq.mp h11) (beq_iff_eq.mp h12) (beq_iff_eq.mp h2))
    unfold handlePaymentSucceeded
    simp only [hconn, hnone]

/-- C4: both recovery paths.  (Webhook) a `payment_succeeded` event for
the unique active case of its invoice marks the case recovered with
`recoveredAt = now`, leaves no pending attempt for the case, and a
second delivery changes nothing further — recovery happens exactly once.
(Executor) a successful retry execution reports success, marks the case
recovered with `recoveredAt = now`, marks the executed attempt `success`
and every attempt of the case pending at that moment `skipped`, so no
pending attempt remains; any later execution for the case errors without
mutating the store, so no further attempt fires. -/
theorem c4_recovered_exactly_once_and_no_pending :
    (∀ (db : DB) (acct : String) (inv : StripeInvoice) (now now2 : Time)
        (connection : StripeConnection) (failed : FailedPayment),
      db.connections.find? (fun c => c.stripeAccountId == acct) = some connection →
      db.payments.find? (fun p => p.stripeConnectionId == connection.id
          && p.stripeInvoiceId == some inv.id && p.status == CaseStatus.active) = some failed →
      (∀ p ∈ db.payments, p.stripeConnectionId = connection.id →
          p.stripeInvoiceId = some inv.id → p.status = CaseStatus.active → p.id = failed.id) →
      (∀ p ∈ (handlePaymentSucceeded db acct inv now).payments,
          p.id = failed.id → p.status = CaseStatus.recovered ∧ p.recoveredAt = some now)
      ∧ (∀ b ∈ (handlePaymentSucceeded db acct inv now).attempts,
          b.failedPaymentId = failed.id → b.status ≠ AttemptStatus.pending)
      ∧ handlePaymentSucceeded (handlePaymentSucceeded db acct inv now) acct inv now2
          = handlePaymentSucceeded db acct inv now)
    ∧ (∀ (db : DB) (pid aid : Nat) (now : Time) (payment : FailedPayment)
        (connection : StripeConnection),
      db.payments.find? (fun p => p.id == pid) = some payment →
      payment.status = CaseStatus.active →
      payment.stripeInvoiceId ≠ none →
      db.connections.find? (fun c => c.id == payment.stripeConnectionId) = some connection →
      connection.accessTokenDecrypted.isSome →
      (∃ res, (executeRetryAttempt db pid aid .ok now).2 = .ok res ∧ res.success = true)
      ∧ (∀ p ∈ (executeRetryAttempt db pid aid .ok now).1.payments,
          p.id = pid → p.status = CaseStatus.recovered ∧ p.recoveredAt = some now)
      ∧ (∀ b ∈ (executeRetryAttempt db pid aid .ok now).1.attempts,
          b.failedPaymentId = pid → b.status ≠ AttemptStatus.pending)
      ∧ (∀ b ∈ (executeRetryAttempt db pid aid .ok now).1.attempts,
          b.id = aid → b.status = AttemptStatus.success)
      ∧ (∀ (aid2 : Nat) (outcome2 : FetchOutcome) (now2 : Time),
          executeRetryAttempt (executeRetryAttempt db pid aid .ok now).1 pid aid2 outcome2 now2
            = ((executeRetryAttempt db pid aid .ok now).1, .error "not in active state"))) :=
  ⟨fun db acct inv now now2 connection failed h1 h2 h3 =>
      handlePaymentSucceeded_recovers db acct inv now now2 connection failed h1 h2 h3,
   fun db pid aid now payment connection h1 h2 h3 h4 h5 =>
      executeRetryAttempt_success_recovers db pid aid now payment connection h1 h2 h3 h4 h5⟩

/-- The `payment_succeeded` invoice payload for the sample case. -/
def sampleInvoice : StripeInvoice :=
  ⟨"in_1", "cus_1", none, 4900, "usd", none, some "c@x.io", some "Jane", none, none, none⟩

/-- C4 witness: both parts of the theorem at the concrete store. -/
theorem c4_recovered_exactly_once_and_no_pending_witness :
    ((∀ p ∈ (handlePaymentSucceeded sampleDB "acct_1" sampleInvoice 500).payments,
        p.id = samplePayment.id → p.status = CaseStatus.recovered ∧ p.recoveredAt = some 500)
      ∧ (∀ b ∈ (handlePaymentSucceeded sampleDB "acct_1" sampleInvoice 500).attempts,
          b.failedPaymentId = samplePayment.id → b.status ≠ AttemptStatus.pending)
      ∧ handlePaymentSucceeded (handlePaymentSucceeded sampleDB "acct_1" sampleInvoice 500)
            "acct_1" sampleInvoice 600
          = handlePaymentSucceeded sampleDB "acct_1" sampleInvoice 500)
    ∧ ((∃ res, (executeRetryAttempt sampleDB 2 3 .ok 500).2 = .ok res ∧ res.success = true)
      ∧ (∀ p ∈ (executeRetryAttempt sampleDB 2 3 .ok 500).1.payments,
          p.id = 2 → p.status = CaseStatus.recovered ∧ p.recoveredAt = some 500)
      ∧ (∀ b ∈ (executeRetryAttempt sampleDB 2 3 .ok 500).1.attempts,
          b.failedPaymentId = 2 → b.status ≠ AttemptStatus.pending)
      ∧ (∀ b ∈ (executeRetryAttempt sampleDB 2 3 .ok 500).1.attempts,
          b.id = 3 → b.status = AttemptStatus.success)
      ∧ (∀ (aid2 : Nat) (outcome2 : FetchOutcome) (now2 : Time),
          executeRetryAttempt (executeRetryAttempt sampleDB 2 3 .ok 500).1 2 aid2 outcome2 now2
            = ((executeRetryAttempt sampleDB 2 3 .ok 500).1, .error "not in active state"))) :=
  ⟨c4_recovered_exactly_once_and_no_pending.1 sampleDB "acct_1" sampleInvoice 500 600
      sampleConnection samplePayment (by decide) (by decide) (by decide),
   c4_recovered_exactly_once_and_no_pending.2 sampleDB 2 3 500 samplePayment
      sampleConnection (by decide) rfl (by decide) (by decide) (by decide)⟩

-- ── C8: the dunning scan yields at most one first due step per case ──────

instance : IsTotal DunningTemplate (fun a b => a.sequenceOrder ≤ b.sequenceOrder) :=
  ⟨fun _ _ => Int.le_total _ _⟩

instance : IsTrans DunningTemplate (fun a b => a.sequenceOrder ≤ b.sequenceOrder) :=
  ⟨fun _ _ _ h1 h2 => le_trans h1 h2⟩

/-- The per-case loop (skip attempted, stop at the first due) is exactly
"first template that is unattempted and due". -/
lemma firstDueTemplate_eq_find? (sent : List Nat) (createdAt now : Time)
    (l : List DunningTemplate) :
    firstDueTemplate sent createdAt now l
      = l.find? (fun t => !(sent.contains t.id) && templateDue createdAt now t) := by
  induction l with
  | nil => rfl
  | cons t ts ih =>
    unfold firstDueTemplate
    by_cases h1 : sent.contains t.id = true
    · rw [if_pos h1, ih, List.find?_cons_of_neg]
      intro hp
      have hcontra := ((Bool.and_eq_true _ _).mp hp).1
      rw [h1] at hcontra
      exact Bool.noConfusion hcontra
    · rw [if_neg h1]
      have hb : sent.contains t.id = false := by
        revert h1
        cases sent.contains t.id <;> simp
      by_cases h2 : templateDue createdAt now t = true
      · rw [if_pos h2, List.find?_cons_of_pos]
        show (!sent.contains t.id && templateDue createdAt now t) = true
        rw [hb, h2]
        rfl
      · rw [if_neg h2, ih, List.find?_cons_of_neg]
        intro hp
        exact h2 ((Bool.and_eq_true _ _).mp hp).2

/-- Mapping the survivors of a `filterMap` is a sublist of mapping the
input, when the two projections agree on survivors. -/
lemma map_filterMap_sublist {α β γ : Type} (F : α → Option β) (f : β → γ) (g : α → γ)
    (h : ∀ a b, F a = some b → f b = g a) (l : List α) :
    ((l.filterMap F).map f).Sublist (l.map g) := by
  induction l with
  | nil => simp
  | cons a as ih =>
    rw [List.filterMap_cons]
    cases hFa : F a with
    | none => exact ih.cons (g a)
    | some b =>
      rw [List.map_cons, List.map_cons, h a b hFa]
      exact ih.cons₂ (g a)

/-- The scan's per-payment entry, when produced, is for that payment. -/
lemma fetchDueDunning_row_case (db : DB) (now : Time) (p : FailedPayment)
    (d : DueDunningEmail)
    (h : (if !(strTruthy p.customerEmail) then none
          else match firstDueTemplate (sentTemplateIds db p.id) p.createdAt now
              (orderedActiveTemplates db p.userId) with
            | none => none
            | some template =>
              some { failedPaymentId := p.id, templateId := template.id,
                     sequenceOrder := template.sequenceOrder,
                     customerEmail := p.customerEmail.getD "",
                     customerName := p.customerName,
                     amountCents := p.amountCents,
                     currency := p.currency, userId := p.userId }) = some d) :
    d.failedPaymentId = p.id := by
  split at h
  · exact Option.noConfusion h
  · cases hm : firstDueTemplate (sentTemplateIds db p.id) p.createdAt now
        (orderedActiveTemplates db p.userId) with
    | none => rw [hm] at h; exact Option.noConfusion h
    | some t =>
      rw [hm] at h
      cases h
      rfl

/-- Distinct cases in the store yield at most one scan entry each. -/
lemma fetchDueDunningEmails_nodup (db : DB) (now : Time) (batchSize : Nat)
    (h : (db.payments.map (fun p => p.id)).Nodup) :
    ((fetchDueDunningEmails db now batchSize).map (fun d => d.failedPaymentId)).Nodup := by
  unfold fetchDueDunningEmails
  have hsub1 : ((db.payments.filter (fun p =>
      p.status == CaseStatus.active && p.customerEmail.isSome)).take batchSize).Sublist
      db.payments :=
    (List.take_sublist _ _).trans (List.filter_sublist _)
  have hmapsub := map_filterMap_sublist
    (fun p : FailedPayment =>
      if !(strTruthy p.customerEmail) then none
      else match firstDueTemplate (sentTemplateIds db p.id) p.createdAt now
          (orderedActiveTemplates db p.userId) with
        | none => none
        | some template =>
          some { failedPaymentId := p.id, templateId := template.id,
                 sequenceOrder := template.sequenceOrder,
                 customerEmail := p.customerEmail.getD "",
                 customerName := p.customerName,
                 amountCents := p.amountCents,
                 currency := p.currency, userId := p.userId })
    (fun d : DueDunningEmail => d.failedPaymentId) (fun p : FailedPayment => p.id)
    (fun p d hpd => fetchDueDunning_row_case db now p d hpd)
    ((db.payments.filter (fun p =>
      p.status == CaseStatus.active && p.customerEmail.isSome)).take batchSize)
  exact (hmapsub.trans (hsub1.map (fun p : FailedPayment => p.id))).nodup h

/-- Every scan entry is the first unattempted-and-due template — in
ascending `sequenceOrder` — of an active case: the reported template is
unattempted (rows of any status count) and past its
`createdAt + delayDays` due time, and every active template of the same
user with a strictly smaller sequence order is attempted or not yet due. -/
lemma fetchDueDunningEmails_first_due (db : DB) (now : Time) (batchSize : Nat)
    (d : DueDunningEmail) (hd : d ∈ fetchDueDunningEmails db now batchSize) :
    ∃ p ∈ db.payments, p.id = d.failedPaymentId ∧ p.status = CaseStatus.active ∧
      ∃ t ∈ db.templates, t.userId = p.userId ∧ t.isActive = true
        ∧ t.id = d.templateId
        ∧ (sentTemplateIds db p.id).contains t.id = false
        ∧ templateDue p.createdAt now t = true
        ∧ ∀ t2 ∈ db.templates, t2.userId = p.userId → t2.isActive = true →
            t2.sequenceOrder < t.sequenceOrder →
            ((sentTemplateIds db p.id).contains t2.id = true
              ∨ templateDue p.createdAt now t2 = false) := by
  unfold fetchDueDunningEmails at hd
  rcases List.mem_filterMap.mp hd with ⟨p, hpmem, hFp⟩
  have hp' := (List.take_sublist _ _).subset hpmem
  have hpfil := List.mem_filter.mp hp'
  have hpact : p.status = CaseStatus.active :=
    beq_iff_eq.mp ((Bool.and_eq_true _ _).mp hpfil.2).1
  refine ⟨p, hpfil.1, ?_⟩
  split at hFp
  · exact Option.noConfusion hFp
  · cases hm : firstDueTemplate (sentTemplateIds db p.id) p.createdAt now
        (orderedActiveTemplates db p.userId) with
    | none => simp only [hm] at hFp; exact Option.noConfusion hFp
    | some t =>
      simp only [hm, Option.some.injEq] at hFp
      cases hFp
      rw [firstDueTemplate_eq_find?] at hm
      obtain ⟨hpred, as, bs, hsplit, hearlier⟩ := List.find?_eq_some.mp hm
      have hperm := List.perm_insertionSort
        (fun a b : DunningTemplate => a.sequenceOrder ≤ b.sequenceOrder)
        (db.templates.filter (fun t => t.userId == p.userId && t.isActive))
      have htmem : t ∈ orderedActiveTemplates db p.userId := by
        rw [hsplit]
        exact List.mem_append_right as (List.mem_cons_self t bs)
      have htfil := List.mem_filter.mp (hperm.subset htmem)
      have htuser : t.userId = p.userId :=
        beq_iff_eq.mp ((Bool.and_eq_true _ _).mp htfil.2).1
      have htactive : t.isActive = true := ((Bool.and_eq_true _ _).mp htfil.2).2
      have hsent : (sentTemplateIds db p.id).contains t.id = false := by
        have h1 := ((Bool.and_eq_true _ _).mp hpred).1
        revert h1
        cases (sentTemplateIds db p.id).contains t.id <;> simp
      refine ⟨rfl, hpact, t, htfil.1, htuser, htactive, rfl, hsent,
        ((Bool.and_eq_true _ _).mp hpred).2, ?_⟩
      intro t2 ht2 hu2 ha2 hlt
      have ht2sort : t2 ∈ orderedActiveTemplates db p.userId :=
        hperm.symm.subset (List.mem_filter.mpr ⟨ht2, by rw [hu2, ha2]; simp⟩)
      rw [hsplit] at ht2sort
      rcases List.mem_append.mp ht2sort with h2as | h2rest
      · have hnp := hearlier t2 h2as
        have : (!(sentTemplateIds db p.id).contains t2.id
            && templateDue p.createdAt now t2) = false := by
          revert hnp
          cases (!(sentTemplateIds db p.id).contains t2.id
            && templateDue p.createdAt now t2) <;> simp
        cases hc : (sentTemplateIds db p.id).contains t2.id with
        | true => exact Or.inl rfl
        | false =>
          rw [hc] at this
          simp only [Bool.not_false, Bool.true_and] at this
          exact Or.inr this
      · rcases List.mem_cons.mp h2rest with rfl | h2bs
        · exact absurd hlt (lt_irrefl _)
        · have hsorted := List.sorted_insertionSort
            (fun a b : DunningTemplate => a.sequenceOrder ≤ b.sequenceOrder)
            (db.templates.filter (fun t => t.userId == p.userId && t.isActive))
          rw [show List.insertionSort
                (fun a b : DunningTemplate => a.sequenceOrder ≤ b.sequenceOrder)
                (db.templates.filter (fun t => t.userId == p.userId && t.isActive))
              = orderedActiveTemplates db p.userId from rfl, hsplit] at hsorted
          have hcons := List.Pairwise.sublist (List.sublist_append_right as (t :: bs)) hsorted
          have hle := List.rel_of_sorted_cons hcons t2 h2bs
          exact absurd hlt (not_lt.mpr hle)

/-- C8: per scan, (i) each case yields at most one `(case, template)`
pair — the reported case ids are pairwise distinct whenever the stored
case ids are; (ii) every pair reported is for an active case and names
the first template in ascending sequence order that has no
DunningEmailRecord for the case (rows of any status, `failed` included,
count as attempted) and whose due time `createdAt + delayDays` has
passed — every lower-sequence active template being attempted or not yet
due, even when several steps are simultaneously overdue. -/
theorem c8_dunning_scan_one_step_per_case :
    (∀ (db : DB) (now : Time) (batchSize : Nat),
      (db.payments.map (fun p => p.id)).Nodup →
      ((fetchDueDunningEmails db now batchSize).map (fun d => d.failedPaymentId)).Nodup)
    ∧ (∀ (db : DB) (now : Time) (batchSize : Nat) (d : DueDunningEmail),
      d ∈ fetchDueDunningEmails db now batchSize →
      ∃ p ∈ db.payments, p.id = d.failedPaymentId ∧ p.status = CaseStatus.active ∧
        ∃ t ∈ db.templates, t.userId = p.userId ∧ t.isActive = true
          ∧ t.id = d.templateId
          ∧ (sentTemplateIds db p.id).contains t.id = false
          ∧ templateDue p.createdAt now t = true
          ∧ ∀ t2 ∈ db.templates, t2.userId = p.userId → t2.isActive = true →
              t2.sequenceOrder < t.sequenceOrder →
              ((sentTemplateIds db p.id).contains t2.id = true
                ∨ templateDue p.createdAt now t2 = false)) :=
  ⟨fun db now batchSize h => fetchDueDunningEmails_nodup db now batchSize h,
   fun db now batchSize d hd => fetchDueDunningEmails_first_due db now batchSize d hd⟩

/-- Dunning step 1 (day 1) of the sample user. -/
def sampleTemplate1 : DunningTemplate := ⟨20, 7, "Day 1", "s1", "h1", "t1", 1, 1, true⟩

/-- Dunning step 2 (day 5) of the sample user. -/
def sampleTemplate2 : DunningTemplate := ⟨21, 7, "Day 5", "s2", "h2", "t2", 5, 2, true⟩

/-- A failed send of step 1 for the sample case — still "attempted". -/
def sampleDunningEmailRow : DunningEmail := ⟨30, 2, some 20, "c@x.io", "s1", DunningStatus.failed, none⟩

/-- Store in which step 1 was attempted (and failed) and step 2 is due. -/
def sampleDunningDB : DB :=
  ⟨[sampleConnection], [samplePayment], [sampleAttempt1],
   [sampleTemplate1, sampleTemplate2], [sampleDunningEmailRow], 40⟩

/-- C8 witness: the theorem at the concrete store on day 6, where the
scan reports exactly step 2 for the one active case. -/
theorem c8_dunning_scan_one_step_per_case_witness :
    ((fetchDueDunningEmails sampleDunningDB (6 * 86400000) 50).map
        (fun d => d.failedPaymentId)).Nodup
    ∧ ∃ p ∈ sampleDunningDB.payments,
        p.id = (⟨2, 21, 2, "c@x.io", some "Jane", 4900, "usd", 7⟩ : DueDunningEmail).failedPaymentId
        ∧ p.status = CaseStatus.active ∧
        ∃ t ∈ sampleDunningDB.templates, t.userId = p.userId ∧ t.isActive = true
          ∧ t.id = (⟨2, 21, 2, "c@x.io", some "Jane", 4900, "usd", 7⟩ : DueDunningEmail).templateId
          ∧ (sentTemplateIds sampleDunningDB p.id).contains t.id = false
          ∧ templateDue p.createdAt (6 * 86400000) t = true
          ∧ ∀ t2 ∈ sampleDunningDB.templates, t2.userId = p.userId → t2.isActive = true →
              t2.sequenceOrder < t.sequenceOrder →
              ((sentTemplateIds sampleDunningDB p.id).contains t2.id = true
                ∨ templateDue p.createdAt (6 * 86400000) t2 = false) :=
  ⟨c8_dunning_scan_one_step_per_case.1 sampleDunningDB (6 * 86400000) 50 (by decide),
   c8_dunning_scan_one_step_per_case.2 sampleDunningDB (6 * 86400000) 50
      ⟨2, 21, 2, "c@x.io", some "Jane", 4900, "usd", 7⟩ (by decide)⟩

end RecoverHub
